import Mathlib

/-!
Shallow embedding of `scraper.py` (Books-to-Scrape crawler).

The HTML document model and the HTTP transport are black boxes in the
program (per its design); here they are modelled as explicit inputs: a
parsed detail page is a `DetailPage` of already-extracted optional texts,
and the network is a function from URLs / page numbers to outcomes.
Python dictionaries are insertion-ordered association lists with
assignment updating the first occurrence in place (appending when the
key is new), exactly as CPython dicts behave.
-/

namespace Scraper

/-- A field value in a book record: a string, an integer, or Python `None`. -/
inductive Value where
  | str (s : String)
  | int (n : Int)
  | null
  deriving DecidableEq, Repr

/-- `BookData`: a book record, a Python dict from field name to value. -/
abbrev BookData := List (String × Value)

/-- Python dict assignment `d[k] = v`: update the first occurrence of `k`
in place, or append `(k, v)` when `k` is absent. -/
def dictInsert (d : BookData) (k : String) (v : Value) : BookData :=
  match d with
  | [] => [(k, v)]
  | (k₀, v₀) :: rest =>
    if k₀ = k then (k₀, v) :: rest else (k₀, v₀) :: dictInsert rest k v

/-- Python dict lookup `d.get(k)`. -/
def dictGet (d : BookData) (k : String) : Option Value :=
  match d with
  | [] => none
  | (k₀, v₀) :: rest => if k₀ = k then some v₀ else dictGet rest k

/-- `RATING_MAP = {'One': 1, 'Two': 2, 'Three': 3, 'Four': 4, 'Five': 5}`. -/
def RATING_MAP : List (String × Int) :=
  [("One", 1), ("Two", 2), ("Three", 3), ("Four", 4), ("Five", 5)]

/-- `m.get(k, dflt)` on a small constant dict such as `RATING_MAP`. -/
def lookupOrD (m : List (String × Int)) (k : String) (dflt : Int) : Int :=
  match m with
  | [] => dflt
  | (k₀, v₀) :: rest => if k₀ = k then v₀ else lookupOrD rest k dflt

/-- The already-parsed content of one book detail page: the stripped text of
each element `get_book_data` queries, `none` when the element is absent.
`ratingClasses` is the class-attribute list of the `star-rating` element
(`none` when the element is missing or carries no list-valued class
attribute); `infoRows` gives each specification-table row's optional
header-cell and data-cell texts. -/
structure DetailPage where
  title : Option String
  price : Option String
  ratingClasses : Option (List String)
  stock : Option String
  description : Option String
  infoRows : List (Option String × Option String)
  deriving DecidableEq, Repr

/-- The rating computation of `get_book_data` (lines 61-66): start from 0,
and when the star-rating element has a class list with more than one entry,
look entry 1 up in `RATING_MAP` with default 0. -/
def extractRating (p : DetailPage) : Int :=
  match p.ratingClasses with
  | none => 0
  | some cs =>
    if h : 1 < cs.length then lookupOrD RATING_MAP (cs.get ⟨1, h⟩) 0 else 0

/-- Rows of the specifications table that have both a header cell and a
data cell, as `(header text, data text)` pairs in table order. -/
def infoOf (rows : List (Option String × Option String)) :
    List (String × String) :=
  rows.filterMap fun r =>
    match r with
    | (some k, some v) => some (k, v)
    | _ => none

/-- Lift an optional extracted text to a record value (`None` when absent). -/
def optStr : Option String → Value
  | none => .null
  | some s => .str s

/-- The record literal of `get_book_data` (lines 93-101): the six fixed
fields followed by the `**info` merge, which assigns every collected table
row into the dict in table order. -/
def buildRecord (book_url : String) (p : DetailPage) : BookData :=
  (infoOf p.infoRows).foldl (fun d kv => dictInsert d kv.1 (.str kv.2))
    [("title", optStr p.title), ("price", optStr p.price),
     ("rating", .int (extractRating p)), ("stock", optStr p.stock),
     ("description", optStr p.description), ("url", .str book_url)]

/-- Outcome of `session.get` on a detail page: `reqErr` is any
`requests.RequestException` (transport error, timeout, redirect failure);
`raise` is any other exception escaping the fetch or the parse, which
`get_book_data` does not catch; `ok` is a delivered response with its
final status code and parsed body. -/
inductive DetailOutcome where
  | raise
  | reqErr
  | ok (status : Nat) (page : DetailPage)

/-- `response.raise_for_status()` raises `requests.HTTPError` exactly for
status codes 400-599. -/
def raisesForStatus (status : Nat) : Bool :=
  decide (400 ≤ status) && decide (status < 600)

/-- `get_book_data(session, book_url)` (lines 35-105). `Except.error`
models an exception propagating to the caller; `Except.ok d` models the
function returning the dict `d`. `HTTPError` from `raise_for_status` is a
`RequestException` and is caught by the handler at line 103, yielding the
empty dict. -/
def get_book_data (fetchDetail : String → DetailOutcome) (book_url : String) :
    Except Unit BookData :=
  match fetchDetail book_url with
  | .raise => .error ()
  | .reqErr => .ok []
  | .ok status page =>
    if raisesForStatus status then .ok []
    else .ok (buildRecord book_url page)

/-- Outcome of `session.get` on a catalogue page: a transport failure
(`requests.RequestException`) or a response with its status code and the
anchors matched by `article.product_pod h3 a`. Each anchor is its
`href` attribute (`none` when absent or not a string). -/
inductive CatalogueOutcome where
  | reqErr
  | ok (status : Nat) (links : List (Option String))

/-- Outcome of the `session.get(BASE_URL)` reachability check. -/
inductive RootOutcome where
  | reqErr
  | ok (status : Nat)

/-- The reachability check at lines 132-138 fails when the request raises
or `raise_for_status` does. -/
def rootCheckFails : RootOutcome → Bool
  | .reqErr => true
  | .ok s => raisesForStatus s

/-- The fixed external world of one run: the reachability-check outcome,
the per-page catalogue responses, the per-URL detail responses, and the
black-box `urljoin` and page-URL template. -/
structure Env where
  rootOutcome : RootOutcome
  fetchCatalogue : Nat → CatalogueOutcome
  fetchDetail : String → DetailOutcome
  urljoin : String → String → String
  pageUrl : Nat → String

/-- Python truthiness of the `max_pages : Optional[int]` argument:
`None` and `0` are falsy. -/
def truthy : Option Int → Bool
  | none => false
  | some n => n != 0

/-- The loop guard `if max_pages and page > max_pages` (lines 145-146),
with Python short-circuit `and`. -/
def capStop (max_pages : Option Int) (page : Nat) : Bool :=
  truthy max_pages && decide ((page : Int) > max_pages.getD 0)

/-- The absolute URLs appended for one catalogue page (lines 164-169):
every anchor whose `href` is a string, resolved against the page URL. -/
def pageLinks (env : Env) (page : Nat) (links : List (Option String)) :
    List String :=
  links.filterMap fun h => h.map (env.urljoin (env.pageUrl page))

/-- The URL-collection loop of `scrape_books` (lines 141-176), with fuel:
`none` means the loop did not terminate within `fuel` iterations, and
`some urls` is the collected `all_book_urls`. Terminal branches: the page
cap, a transport error, a non-200 status, and a page with no book links;
otherwise the page's links are appended and the loop moves to the next
page number. -/
def collectUrls (env : Env) (max_pages : Option Int) :
    Nat → Nat → List String → Option (List String)
  | 0, _, _ => none
  | fuel + 1, page, acc =>
    if capStop max_pages page then some acc
    else
      match env.fetchCatalogue page with
      | .reqErr => some acc
      | .ok status links =>
        if status ≠ 200 then some acc
        else if links.isEmpty then some acc
        else collectUrls env max_pages fuel (page + 1) (acc ++ pageLinks env page links)

/-- The catalogue walk as `scrape_books` runs it: from page 1 with an
empty accumulator. -/
def walkCatalogue (env : Env) (max_pages : Option Int) (fuel : Nat) :
    Option (List String) :=
  collectUrls env max_pages fuel 1 []

/-- One iteration of the `as_completed` loop (lines 195-209): a completed
task returning a truthy (non-empty) dict is appended to `parsed_books`;
an empty dict or a raised exception increments `failed_count`. -/
def dispatchStep (task : String → Except Unit BookData)
    (st : List BookData × Nat) (url : String) : List BookData × Nat :=
  match task url with
  | .ok d => if d.isEmpty then (st.1, st.2 + 1) else (st.1 ++ [d], st.2)
  | .error _ => (st.1, st.2 + 1)

/-- The fetch dispatcher (lines 184-209): process the submitted tasks in
completion order, accumulating `(parsed_books, failed_count)` from
`([], 0)`. Concurrency is captured by `order`, the completion order of
the futures — an arbitrary permutation of the submitted URL list. -/
def dispatch (task : String → Except Unit BookData) (order : List String) :
    List BookData × Nat :=
  order.foldl (dispatchStep task) ([], 0)

/-- `scrape_books(max_pages)` (lines 109-220): reachability check, then
the catalogue walk, then the dispatch. `completionOrder` supplies the
completion order of the futures for a given submission list; `fuel`
bounds the walk loop (`none` when it does not terminate within it).
The `is_save` branch only forwards `parsed_books` to the persistence
sink, which is modelled separately and never changes the return value. -/
def scrape_books (env : Env) (completionOrder : List String → List String)
    (max_pages : Option Int) (fuel : Nat) : Option (List BookData) :=
  if rootCheckFails env.rootOutcome then some []
  else
    match walkCatalogue env max_pages fuel with
    | none => none
    | some all_book_urls =>
      if all_book_urls.isEmpty then some []
      else
        some (dispatch (get_book_data env.fetchDetail)
          (completionOrder all_book_urls)).1

/-- A JSON document, the image of `json.dump`. -/
inductive Json where
  | str (s : String)
  | num (n : Int)
  | null
  | arr (elems : List Json)
  | obj (fields : List (String × Json))

/-- JSON encoding of one record value. -/
def encodeValue : Value → Json
  | .str s => .str s
  | .int n => .num n
  | .null => .null

/-- JSON encoding of one record, field order preserved. -/
def encodeRecord (d : BookData) : Json :=
  .obj (d.map fun kv => (kv.1, encodeValue kv.2))

/-- `json.dump(book_list, ...)`: the serialized artifact content. -/
def encodeBookList (bl : List BookData) : Json :=
  .arr (bl.map encodeRecord)

/-- Deserializing one record value back from JSON. -/
def decodeValue : Json → Option Value
  | .str s => some (.str s)
  | .num n => some (.int n)
  | .null => some Value.null
  | _ => none

/-- Deserializing the field list of one JSON object. -/
def decodeFields : List (String × Json) → Option BookData
  | [] => some []
  | (k, j) :: rest =>
    match decodeValue j, decodeFields rest with
    | some v, some d => some ((k, v) :: d)
    | _, _ => none

/-- Deserializing one record back from JSON. -/
def decodeRecord : Json → Option BookData
  | .obj fields => decodeFields fields
  | _ => none

/-- Deserializing a JSON array of records. -/
def decodeItems : List Json → Option (List BookData)
  | [] => some []
  | j :: rest =>
    match decodeRecord j, decodeItems rest with
    | some d, some l => some (d :: l)
    | _, _ => none

/-- Deserializing the whole artifact back from JSON. -/
def decodeBookList : Json → Option (List BookData)
  | .arr elems => decodeItems elems
  | _ => none

/-- Outcome of one filesystem operation. -/
inductive FsOp where
  | ok
  | osError
  deriving DecidableEq, Repr

/-- The filesystem behaviour during one `save_books_data` call:
whether `os.makedirs` raises `OSError`, and whether opening and writing
the destination file raises `OSError`/`IOError`. -/
structure SaveEnv where
  makedirs : FsOp
  openWrite : FsOp
  deriving DecidableEq, Repr

/-- Observable result of one `save_books_data` call. `ret` is the Python
return value (`none` models `None`; `some b` would model a boolean).
`content` is the destination file content after the call: a failed write
leaves no valid artifact (the file is opened with mode `w`, truncating,
before the dump can fail), modelled as `none`. -/
structure SaveResult where
  ret : Option Bool
  content : Option Json
  errorLogged : Bool

/-- `save_books_data(book_list, filename)` (lines 223-243): ensure the
`artifacts` directory exists, open the destination for writing
(overwriting any existing content `prior`) and dump the list as JSON;
an `OSError`/`IOError` anywhere is caught and logged, and the function
falls off the end — every path returns `None`. -/
def save_books_data (fs : SaveEnv) (prior : Option Json)
    (book_list : List BookData) : SaveResult :=
  match fs.makedirs with
  | .osError => ⟨none, prior, true⟩
  | .ok =>
    match fs.openWrite with
    | .osError => ⟨none, none, true⟩
    | .ok => ⟨none, some (encodeBookList book_list), false⟩

/-! ### Dictionary lemmas -/

/-- Looking a key up after a Python dict assignment: the assigned key reads
back the new value, every other key is untouched. -/
theorem dictGet_dictInsert (d : BookData) (k₁ : String) (v : Value) (k : String) :
    dictGet (dictInsert d k₁ v) k = if k₁ = k then some v else dictGet d k := by
  induction d with
  | nil => simp [dictInsert, dictGet]
  | cons hd tl ih =>
    obtain ⟨a, b⟩ := hd
    by_cases h1 : a = k₁
    · subst h1
      by_cases h2 : a = k <;> simp [dictInsert, dictGet, h2]
    · by_cases h2 : a = k
      · subst h2
        have : ¬ k₁ = a := fun h => h1 h.symm
        simp [dictInsert, dictGet, h1, this]
      · simp [dictInsert, dictGet, h1, h2, ih]

/-- A dict assignment never empties a dict. -/
theorem dictInsert_ne_nil (d : BookData) (k : String) (v : Value) :
    dictInsert d k v ≠ [] := by
  cases d with
  | nil => simp [dictInsert]
  | cons hd tl =>
    obtain ⟨a, b⟩ := hd
    by_cases h : a = k <;> simp [dictInsert, h]

/-- Folding dict assignments over a row list never empties the dict. -/
theorem foldl_dictInsert_ne_nil (l : List (String × String)) (d : BookData)
    (hd : d ≠ []) :
    l.foldl (fun d kv => dictInsert d kv.1 (.str kv.2)) d ≠ [] := by
  induction l generalizing d with
  | nil => simpa using hd
  | cons a tl ih => exact ih _ (dictInsert_ne_nil _ _ _)

/-- The value the last row labelled `k` carries, scanning a row list —
the value that survives Python last-write-wins assignment. -/
def lastValue : List (String × String) → String → Option String
  | [], _ => none
  | (k₀, v₀) :: rest, k =>
    match lastValue rest k with
    | some w => some w
    | none => if k₀ = k then some v₀ else none

/-- Reading key `k` after folding a row list into a dict: the last row
labelled `k` wins; with no such row the original entry shows through. -/
theorem dictGet_foldl_dictInsert (l : List (String × String)) (d : BookData)
    (k : String) :
    dictGet (l.foldl (fun d kv => dictInsert d kv.1 (.str kv.2)) d) k =
      match lastValue l k with
      | some w => some (.str w)
      | none => dictGet d k := by
  induction l generalizing d with
  | nil => simp [lastValue]
  | cons a tl ih =>
    obtain ⟨k₀, v₀⟩ := a
    simp only [List.foldl_cons, ih, lastValue]
    cases h : lastValue tl k with
    | some w => simp
    | none =>
      by_cases hk : k₀ = k <;> simp [dictGet_dictInsert, hk]

/-- The `url` entry of a freshly built record: the requested address,
unless a specification-table row labelled `url` overwrote it. -/
theorem dictGet_buildRecord_url (url : String) (p : DetailPage) :
    dictGet (buildRecord url p) "url" =
      match lastValue (infoOf p.infoRows) "url" with
      | some w => some (.str w)
      | none => some (.str url) := by
  unfold buildRecord
  rw [dictGet_foldl_dictInsert]
  cases lastValue (infoOf p.infoRows) "url" <;> rfl

/-- A built record is never the empty dict. -/
theorem buildRecord_ne_nil (url : String) (p : DetailPage) :
    buildRecord url p ≠ [] := by
  unfold buildRecord
  exact foldl_dictInsert_ne_nil _ _ (by simp)

/-! ### Rating lookup lemmas -/

/-- `m.get(k, dflt)` stays within any bounds enclosing the default and
every value of `m`. -/
theorem lookupOrD_bounds (m : List (String × Int)) (k : String)
    (dflt lo hi : Int) (hd : lo ≤ dflt ∧ dflt ≤ hi)
    (hm : ∀ kv ∈ m, lo ≤ kv.2 ∧ kv.2 ≤ hi) :
    lo ≤ lookupOrD m k dflt ∧ lookupOrD m k dflt ≤ hi := by
  induction m with
  | nil => simpa [lookupOrD] using hd
  | cons a tl ih =>
    simp only [lookupOrD]
    split
    · exact hm a (by simp)
    · exact ih fun kv h => hm kv (by simp [h])

/-- `m.get(k, dflt)` is the default when no key of `m` equals `k`. -/
theorem lookupOrD_eq_default (m : List (String × Int)) (k : String) (dflt : Int)
    (h : ∀ kv ∈ m, kv.1 ≠ k) :
    lookupOrD m k dflt = dflt := by
  induction m with
  | nil => rfl
  | cons a tl ih =>
    simp only [lookupOrD]
    rw [if_neg (h a (by simp))]
    exact ih fun kv hkv => h kv (by simp [hkv])

/-! ### Dispatcher lemmas -/

/-- The record a completed task contributes to `parsed_books`, if any:
its dict when the task returned a truthy one, nothing when it returned
the empty dict or raised. -/
def successOf (task : String → Except Unit BookData) (url : String) :
    Option BookData :=
  match task url with
  | .ok d => if d.isEmpty then none else some d
  | .error _ => none

/-- Invariant of the `as_completed` loop: the success accumulator is the
initial one extended by exactly the truthy results in completion order,
and accumulator length plus failure count grows by one per task. -/
theorem dispatch_foldl_spec (task : String → Except Unit BookData)
    (l : List String) (acc : List BookData) (n : Nat) :
    (l.foldl (dispatchStep task) (acc, n)).1 = acc ++ l.filterMap (successOf task) ∧
    (l.foldl (dispatchStep task) (acc, n)).1.length +
        (l.foldl (dispatchStep task) (acc, n)).2 = acc.length + n + l.length := by
  induction l generalizing acc n with
  | nil => simp
  | cons u tl ih =>
    simp only [List.foldl_cons, List.filterMap_cons, List.length_cons]
    have hstep : dispatchStep task (acc, n) u =
        match successOf task u with
        | some d => (acc ++ [d], n)
        | none => (acc, n + 1) := by
      unfold dispatchStep successOf
      cases task u with
      | ok d => by_cases hd : d.isEmpty <;> simp [hd]
      | error e => rfl
    rw [hstep]
    cases hs : successOf task u with
    | some d =>
      have h := ih (acc ++ [d]) n
      refine ⟨by rw [h.1]; simp, ?_⟩
      rw [h.2]
      simp
      omega
    | none =>
      have h := ih acc (n + 1)
      refine ⟨h.1, ?_⟩
      rw [h.2]
      omega

/-! ### Walker lemmas -/

/-- Whatever the walker returns extends the accumulator it started from:
no terminal condition discards previously collected URLs. -/
theorem collectUrls_extends (env : Env) (max_pages : Option Int) :
    ∀ fuel page acc r, collectUrls env max_pages fuel page acc = some r →
      ∃ tail, r = acc ++ tail := by
  intro fuel
  induction fuel with
  | zero => intro page acc r h; simp [collectUrls] at h
  | succ n ih =>
    intro page acc r h
    rw [collectUrls] at h
    by_cases hc : capStop max_pages page
    · rw [if_pos hc] at h
      exact ⟨[], by simpa using (Option.some_injective _ h).symm⟩
    · rw [if_neg hc] at h
      cases hf : env.fetchCatalogue page with
      | reqErr =>
        rw [hf] at h
        exact ⟨[], by simpa using (Option.some_injective _ h).symm⟩
      | ok s links =>
        rw [hf] at h
        dsimp only at h
        by_cases hs : s ≠ 200
        · rw [if_pos hs] at h
          exact ⟨[], by simpa using (Option.some_injective _ h).symm⟩
        · rw [if_neg hs] at h
          by_cases he : links.isEmpty
          · rw [if_pos he] at h
            exact ⟨[], by simpa using (Option.some_injective _ h).symm⟩
          · rw [if_neg he] at h
            obtain ⟨tail, htail⟩ := ih (page + 1) (acc ++ pageLinks env page links) r h
            exact ⟨pageLinks env page links ++ tail, by simp [htail]⟩

/-- A page cap of `0` is falsy, exactly like `None`: the guard never
fires, so the walk is identical step by step. -/
theorem collectUrls_zero_cap (env : Env) :
    ∀ fuel page acc, collectUrls env (some 0) fuel page acc =
      collectUrls env none fuel page acc := by
  intro fuel
  induction fuel with
  | zero => intro page acc; rfl
  | succ n ih =>
    intro page acc
    rw [collectUrls, collectUrls]
    have h0 : capStop (some 0) page = false := by simp [capStop, truthy]
    have h1 : capStop none page = false := by simp [capStop, truthy]
    rw [h0, h1]
    simp only [Bool.false_eq_true, if_false]
    cases env.fetchCatalogue page with
    | reqErr => rfl
    | ok s links =>
      by_cases hs : s ≠ 200
      · simp [hs]
      · by_cases he : links.isEmpty <;> simp [hs, he, ih]

/-! ### Serialization lemmas -/

/-- Decoding inverts encoding on one value. -/
theorem decodeValue_encodeValue (v : Value) :
    decodeValue (encodeValue v) = some v := by
  cases v <;> rfl

/-- Decoding inverts encoding on one record. -/
theorem decodeRecord_encodeRecord (d : BookData) :
    decodeRecord (encodeRecord d) = some d := by
  induction d with
  | nil => rfl
  | cons kv tl ih =>
    obtain ⟨k, v⟩ := kv
    have ih₁ : decodeFields (tl.map fun kv => (kv.1, encodeValue kv.2)) = some tl := ih
    simp [encodeRecord, decodeRecord, decodeFields, decodeValue_encodeValue, ih₁]

/-- Decoding inverts encoding on the whole artifact. -/
theorem decodeBookList_encodeBookList (bl : List BookData) :
    decodeBookList (encodeBookList bl) = some bl := by
  induction bl with
  | nil => rfl
  | cons d tl ih =>
    have ih₁ : decodeItems (tl.map encodeRecord) = some tl := ih
    simp [encodeBookList, decodeBookList, decodeItems,
      decodeRecord_encodeRecord, ih₁]

/-! ### Witness fixtures -/

/-- A representative successfully served detail page, shaped like the
page the repository's own test asserts on. -/
def samplePage : DetailPage :=
  ⟨some "A Light in the Attic", some "£51.77", some ["star-rating", "Three"],
   some "In stock (22 available)", some "d",
   [(some "UPC", some "a897fe39b1053632")]⟩

/-- A web serving every detail page as `samplePage` with status 200. -/
def sampleFetch : String → DetailOutcome := fun _ => .ok 200 samplePage

/-- A web on which every detail fetch raises a transport error / timeout. -/
def timeoutFetch : String → DetailOutcome := fun _ => .reqErr

/-- A detail page whose specification table carries a row labelled `url`. -/
def urlRowPage : DetailPage :=
  ⟨none, none, none, none, none, [(some "url", some "evil")]⟩

/-- A web serving every detail page as `urlRowPage` with status 200. -/
def urlRowFetch : String → DetailOutcome := fun _ => .ok 200 urlRowPage

/-- A detail page whose star-rating class list carries the unrecognized
tag `Six` at index 1. -/
def sixPage : DetailPage :=
  ⟨none, none, some ["star-rating", "Six"], none, none, []⟩

/-- A detail page whose specification table carries a row labelled
`price`, colliding with the fixed `price` field. -/
def pricePage : DetailPage :=
  ⟨some "T", some "£10.00", none, none, none, [(some "price", some "FREE")]⟩

/-- A task assignment with one truthy success, one empty result and one
raising task. -/
def wTask : String → Except Unit BookData := fun u =>
  if u = "a" then .ok [("url", .str "a")]
  else if u = "b" then .ok []
  else .error ()

/-- A reachable site whose catalogue serves two link-bearing pages then a
404, and whose detail fetches all time out. -/
def envW : Env :=
  ⟨.ok 200,
   fun p => if p ≤ 2 then .ok 200 [some "b", none] else .ok 404 [],
   fun _ => .reqErr,
   fun base h => base ++ "/" ++ h,
   fun p => "page-" ++ toString p⟩

/-- An unreachable site root in front of a catalogue that would serve
links and detail pages — exercising the fast-fail path. -/
def envDown : Env :=
  ⟨.reqErr,
   fun _ => .ok 200 [some "b1"],
   fun _ => .ok 200 samplePage,
   fun base h => base ++ h,
   fun _ => "p"⟩

/-- A two-record collection for the persistence fixtures. -/
def demoBooks : List BookData :=
  [[("title", .str "T"), ("rating", .int 3), ("url", .str "u")],
   [("title", .null), ("url", .str "v")]]

/-! ### Claims -/

/-- C1: for every set of N discovered URLs handed to the fetch
dispatcher, every submitted task is accounted for exactly once — the
records appended to `parsed_books` plus `failed_count` equal N, and
`parsed_books` is exactly the truthy results in completion order (no
completed result lost or duplicated), for every completion order of the
submitted URLs. -/
theorem dispatch_accounts_for_all (task : String → Except Unit BookData)
    (all_book_urls order : List String) (hperm : order.Perm all_book_urls) :
    (dispatch task order).1.length + (dispatch task order).2 =
      all_book_urls.length ∧
    (dispatch task order).1 = order.filterMap (successOf task) := by
  have h := dispatch_foldl_spec task order [] 0
  constructor
  · unfold dispatch
    rw [h.2]
    simpa using hperm.length_eq
  · unfold dispatch
    rw [h.1]
    simp

/-- Witness for C1 at a concrete three-task run completing in a
non-submission order: one truthy record, two failures, 1 + 2 = 3. -/
theorem dispatch_accounts_for_all_witness :
    (dispatch wTask ["b", "c", "a"]).1.length + (dispatch wTask ["b", "c", "a"]).2 =
      (["a", "b", "c"] : List String).length ∧
    (dispatch wTask ["b", "c", "a"]).1 =
      (["b", "c", "a"] : List String).filterMap (successOf wTask) :=
  dispatch_accounts_for_all wTask ["a", "b", "c"] ["b", "c", "a"] (by decide)

/-- C2: whenever the fetch inside `get_book_data` fails — a
`requests.RequestException` (transport error, timeout) or a 4xx/5xx
status that `raise_for_status` turns into an `HTTPError` — the function
returns exactly the empty dict, raising nothing to its caller. -/
theorem get_book_data_failure_empty (fetchDetail : String → DetailOutcome)
    (book_url : String)
    (h : fetchDetail book_url = .reqErr ∨
      ∃ s page, fetchDetail book_url = .ok s page ∧ raisesForStatus s = true) :
    get_book_data fetchDetail book_url = .ok [] := by
  rcases h with h | ⟨s, page, h, hs⟩
  · simp [get_book_data, h]
  · simp [get_book_data, h, hs]

/-- Witness for C2 at a concrete timed-out fetch. -/
theorem get_book_data_failure_empty_witness :
    get_book_data timeoutFetch "http://books/x" = .ok [] :=
  get_book_data_failure_empty timeoutFetch "http://books/x" (Or.inl rfl)

/-- C3 fails as stated: on `urlRowPage` the fetch succeeds (status 200),
yet the returned record's `url` entry is the specification-table value
`evil`, not the requested address `http://x`, because the `**info` merge
overwrote it. -/
theorem success_url_key_counterexample :
    get_book_data urlRowFetch "http://x" = .ok (buildRecord "http://x" urlRowPage) ∧
    dictGet (buildRecord "http://x" urlRowPage) "url" = some (Value.str "evil") ∧
    some (Value.str "evil") ≠ some (Value.str "http://x") :=
  ⟨rfl, by decide, by decide⟩

/-- C3 (amended): on every successful fetch the record is non-empty and
contains the key `url`; its value equals the requested address whenever
no specification-table row is labelled `url` (a row labelled `url`
overwrites it, as the collision behaviour accepts). Emptiness remains
the success/failure discriminator. -/
theorem get_book_data_success_record (fetchDetail : String → DetailOutcome)
    (book_url : String) (s : Nat) (page : DetailPage)
    (hf : fetchDetail book_url = .ok s page)
    (hs : raisesForStatus s = false) :
    get_book_data fetchDetail book_url = .ok (buildRecord book_url page) ∧
    buildRecord book_url page ≠ [] ∧
    (dictGet (buildRecord book_url page) "url").isSome = true ∧
    (lastValue (infoOf page.infoRows) "url" = none →
      dictGet (buildRecord book_url page) "url" = some (.str book_url)) := by
  refine ⟨by simp [get_book_data, hf, hs], buildRecord_ne_nil book_url page, ?_, ?_⟩
  · rw [dictGet_buildRecord_url]
    cases lastValue (infoOf page.infoRows) "url" <;> rfl
  · intro h
    rw [dictGet_buildRecord_url, h]

/-- Witness for C3 (amended) at a concrete successful fetch of
`samplePage`, whose table has no `url` row. -/
theorem get_book_data_success_record_witness :
    get_book_data sampleFetch "http://b" = .ok (buildRecord "http://b" samplePage) ∧
    buildRecord "http://b" samplePage ≠ [] ∧
    (dictGet (buildRecord "http://b" samplePage) "url").isSome = true ∧
    dictGet (buildRecord "http://b" samplePage) "url" = some (.str "http://b") := by
  have h := get_book_data_success_record sampleFetch "http://b" 200 samplePage rfl rfl
  exact ⟨h.1, h.2.1, h.2.2.1, h.2.2.2 (by decide)⟩

/-- C4: the extracted rating is an integer in [0, 5]; a missing
star-rating element, a class list with no index 1, or an index-1 tag
outside `RATING_MAP` each yield exactly 0, and otherwise the rating is
the index-1 tag looked up in `RATING_MAP` with default 0. -/
theorem extractRating_spec (p : DetailPage) :
    (0 ≤ extractRating p ∧ extractRating p ≤ 5) ∧
    (p.ratingClasses = none → extractRating p = 0) ∧
    (∀ cs, p.ratingClasses = some cs → cs.length ≤ 1 → extractRating p = 0) ∧
    (∀ cs, p.ratingClasses = some cs → ∀ h : 1 < cs.length,
      extractRating p = lookupOrD RATING_MAP (cs.get ⟨1, h⟩) 0) ∧
    (∀ cs, p.ratingClasses = some cs → ∀ h : 1 < cs.length,
      (∀ kv ∈ RATING_MAP, kv.1 ≠ cs.get ⟨1, h⟩) → extractRating p = 0) := by
  refine ⟨?_, ?_, ?_, ?_, ?_⟩
  · cases hrc : p.ratingClasses with
    | none => simp [extractRating, hrc]
    | some cs =>
      by_cases h : 1 < cs.length
      · simp only [extractRating, hrc, dif_pos h]
        exact lookupOrD_bounds RATING_MAP _ 0 0 5 (by norm_num) (by decide)
      · simp [extractRating, hrc, h]
  · intro h
    simp [extractRating, h]
  · intro cs hcs hlen
    simp [extractRating, hcs, Nat.not_lt.mpr hlen]
  · intro cs hcs h
    simp [extractRating, hcs, h]
  · intro cs hcs h hun
    simp only [extractRating, hcs, dif_pos h]
    exact lookupOrD_eq_default RATING_MAP (cs.get ⟨1, h⟩) 0 hun

/-- Witness for C4 at a concrete page with the unrecognized tag `Six`. -/
theorem extractRating_spec_witness : extractRating sixPage = 0 :=
  (extractRating_spec sixPage).2.2.2.2 ["star-rating", "Six"] rfl (by decide)
    (by decide)

/-- C5: the catalogue walk starts from page 1 with an empty accumulator;
each of the four terminal conditions — page cap, transport error,
non-200 status, no book links — returns exactly the URLs collected so
far; a non-terminal page appends its links and moves to page + 1; and
every returned collection extends the accumulator the walk started from
(no terminal condition discards collected URLs). -/
theorem walker_terminal_and_monotone (env : Env) (max_pages : Option Int)
    (fuel page : Nat) (acc : List String) :
    walkCatalogue env max_pages fuel = collectUrls env max_pages fuel 1 [] ∧
    (capStop max_pages page = true →
      collectUrls env max_pages (fuel + 1) page acc = some acc) ∧
    (env.fetchCatalogue page = .reqErr →
      collectUrls env max_pages (fuel + 1) page acc = some acc) ∧
    (∀ s links, env.fetchCatalogue page = .ok s links → s ≠ 200 →
      collectUrls env max_pages (fuel + 1) page acc = some acc) ∧
    (∀ links, env.fetchCatalogue page = .ok 200 links → links.isEmpty = true →
      collectUrls env max_pages (fuel + 1) page acc = some acc) ∧
    (∀ links, capStop max_pages page = false →
      env.fetchCatalogue page = .ok 200 links → links.isEmpty = false →
      collectUrls env max_pages (fuel + 1) page acc =
        collectUrls env max_pages fuel (page + 1) (acc ++ pageLinks env page links)) ∧
    (∀ r, collectUrls env max_pages fuel page acc = some r →
      ∃ rest, r = acc ++ rest) := by
  refine ⟨rfl, ?_, ?_, ?_, ?_, ?_,
    collectUrls_extends env max_pages fuel page acc⟩
  · intro h
    rw [collectUrls, if_pos h]
  · intro h
    rw [collectUrls]
    by_cases hc : capStop max_pages page
    · rw [if_pos hc]
    · rw [if_neg hc, h]
  · intro s links h hs
    rw [collectUrls]
    by_cases hc : capStop max_pages page
    · rw [if_pos hc]
    · rw [if_neg hc, h]
      dsimp only
      rw [if_pos hs]
  · intro links h he
    rw [collectUrls]
    by_cases hc : capStop max_pages page
    · rw [if_pos hc]
    · rw [if_neg hc, h]
      dsimp only
      rw [if_neg (by decide), if_pos he]
  · intro links hc h he
    rw [collectUrls, if_neg (by simp [hc]), h]
    dsimp only
    rw [if_neg (by decide), if_neg (by simp [he])]

/-- Witness for C5 at a concrete walk state past the page cap: page 3
with cap 2 stops and returns the accumulator untouched. -/
theorem walker_terminal_and_monotone_witness :
    collectUrls envW (some 2) 5 3 ["u"] = some ["u"] :=
  (walker_terminal_and_monotone envW (some 2) 4 3 ["u"]).2.1 (by decide)

/-- C6: when the reachability check against the site root fails, the run
returns the empty collection for every catalogue, every detail web and
every completion order — observationally, the walk and the dispatch are
never invoked. -/
theorem scrape_books_fast_fail (env : Env)
    (completionOrder : List String → List String) (max_pages : Option Int)
    (fuel : Nat) (h : rootCheckFails env.rootOutcome = true) :
    scrape_books env completionOrder max_pages fuel = some [] := by
  unfold scrape_books
  rw [if_pos h]

/-- Witness for C6 at a concrete unreachable root in front of a
link-bearing catalogue. -/
theorem scrape_books_fast_fail_witness :
    scrape_books envDown id none 7 = some [] :=
  scrape_books_fast_fail envDown id none 7 rfl

/-- C7 fails as stated: `save_books_data` returns `None` on a
filesystem error exactly as on success — no boolean success-or-failure
outcome reaches the caller. -/
theorem save_returns_no_boolean :
    (save_books_data ⟨.ok, .osError⟩ none demoBooks).ret = none ∧
    (save_books_data ⟨.ok, .ok⟩ none demoBooks).ret = none :=
  ⟨rfl, rfl⟩

/-- C7 (amended): `save_books_data` returns `None` on every path; a
filesystem or permission error is caught and logged, never raised, and
on success the artifact is written — but success versus failure is not
reported to the caller. -/
theorem save_books_data_spec (fs : SaveEnv) (prior : Option Json)
    (book_list : List BookData) :
    (save_books_data fs prior book_list).ret = none ∧
    ((fs.makedirs = .osError ∨ fs.openWrite = .osError) →
      (save_books_data fs prior book_list).errorLogged = true) ∧
    (fs.makedirs = .ok → fs.openWrite = .ok →
      (save_books_data fs prior book_list).content =
        some (encodeBookList book_list) ∧
      (save_books_data fs prior book_list).errorLogged = false) := by
  obtain ⟨m, o⟩ := fs
  cases m <;> cases o <;> simp [save_books_data]

/-- Witness for C7 (amended) at a concrete permission error on the
directory creation. -/
theorem save_books_data_spec_witness :
    (save_books_data ⟨.osError, .ok⟩ none demoBooks).ret = none ∧
    (save_books_data ⟨.osError, .ok⟩ none demoBooks).errorLogged = true :=
  ⟨(save_books_data_spec ⟨.osError, .ok⟩ none demoBooks).1,
   (save_books_data_spec ⟨.osError, .ok⟩ none demoBooks).2.1 (Or.inl rfl)⟩

/-- C8: a specification-table row whose header equals a fixed field name
silently overwrites that field in the returned record — the last such
row's value is what the record carries under that key. -/
theorem info_overwrites_fixed_field (book_url : String) (p : DetailPage)
    (k w : String)
    (_hk : k ∈ ["title", "price", "rating", "stock", "description", "url"])
    (hw : lastValue (infoOf p.infoRows) k = some w) :
    dictGet (buildRecord book_url p) k = some (.str w) := by
  unfold buildRecord
  rw [dictGet_foldl_dictInsert, hw]

/-- Witness for C8 at a concrete page whose table row `price` replaces
the fixed price field's `£10.00` with `FREE`. -/
theorem info_overwrites_fixed_field_witness :
    dictGet (buildRecord "http://b" pricePage) "price" = some (.str "FREE") :=
  info_overwrites_fixed_field "http://b" pricePage "price" "FREE" (by decide)
    (by decide)

/-- C9: persisting the same collection twice to the same destination
overwrites the file — the artifact afterwards is exactly the
serialization of the input — and deserializing it yields the input
collection back (record for record, hence equal as a set of records). -/
theorem persist_twice_roundtrip (prior : Option Json) (bl : List BookData) :
    (save_books_data ⟨.ok, .ok⟩
        ((save_books_data ⟨.ok, .ok⟩ prior bl).content) bl).content =
      some (encodeBookList bl) ∧
    decodeBookList (encodeBookList bl) = some bl :=
  ⟨rfl, decodeBookList_encodeBookList bl⟩

/-- C10: a page cap of 0 is falsy in the loop guard, so the walker — and
with it the whole run — behaves exactly as with no cap set, rather than
stopping at zero pages. -/
theorem max_pages_zero_like_none (env : Env)
    (completionOrder : List String → List String) (fuel : Nat) :
    walkCatalogue env (some 0) fuel = walkCatalogue env none fuel ∧
    scrape_books env completionOrder (some 0) fuel =
      scrape_books env completionOrder none fuel := by
  have h := collectUrls_zero_cap env fuel 1 []
  refine ⟨h, ?_⟩
  unfold scrape_books walkCatalogue
  rw [h]

end Scraper
